import Mathlib

/-! AU Journey web backend: the GPS relay of `src/server.js`.

A shallow embedding of the relay part of `server.js`: the Redis poller
(`startRedisGPSMonitoring`, its interval callback, `stopRedisGPSMonitoring`),
the fan-out `broadcastGPSData`, the Redis connectivity callbacks and the three
socket handlers `request-gps-data`, `update-gps-data` and `ping`.

Conventions of the embedding.

* JavaScript code is written in the monad `Eff`, which threads the module
  state, records every externally visible action in a trace and carries a
  thrown exception until a `tryCatch` handles it.
* What the JavaScript engine provides (`JSON.parse`, `JSON.stringify`, the
  truthiness of a number) is a parameter `Engine`; `refEngine` is a concrete
  instance on the integer fragment of JSON, used for closed evaluations.
* A store round trip (`await redis.get` / `await redis.set`) succeeds or fails
  as told by a `StoreReply` argument of the handler; every handler holds one
  `await`, and its run is taken as one atomic step of the event loop.
* `console.log` / `console.error` calls are not recorded.
-/

namespace AUJourney

/-! ## JavaScript values -/

/-- JavaScript values that reach the relay: an event payload or the result of
`JSON.parse`. The number type `ν` is a parameter; the relay does no arithmetic. -/
inductive JSValue (ν : Type) where
  | undefined
  | null
  | bool (b : Bool)
  | num (n : ν)
  | str (s : String)
  | arr (items : List (JSValue ν))
  | obj (fields : List (String × JSValue ν))

/-- A thrown JavaScript error: its class name and its `message`. -/
structure JSError where
  name : String
  message : String

/-- The services of the JavaScript engine the relay calls. `jsonParse` is
`JSON.parse` (an `error` is the thrown `SyntaxError`), `jsonStringify` is
`JSON.stringify` on values other than `undefined`, `numToBoolean` is
`ToBoolean` on numbers (false on `0`, `-0` and `NaN`). `JSON.parse("")` throws. -/
structure Engine (ν : Type) where
  numToBoolean : ν → Bool
  jsonParse : String → Except JSError (JSValue ν)
  jsonStringify : JSValue ν → String
  jsonParse_empty : ∀ v, jsonParse "" ≠ Except.ok v

/-- The abstract operation `ToBoolean`: what `if (x)` and `!x` test. -/
def toBoolean {ν : Type} (E : Engine ν) : JSValue ν → Bool
  | .undefined => false
  | .null => false
  | .bool b => b
  | .num n => E.numToBoolean n
  | .str s => s != ""
  | .arr _ => true
  | .obj _ => true

/-- The `TypeError` of reading a property of `undefined` or `null` (V8 wording). -/
def typeErrorRead (base key : String) : JSError :=
  { name := "TypeError"
    message := "Cannot read properties of " ++ base ++ " (reading '" ++ key ++ "')" }

/-- Property read `v.key` for a key that no prototype defines and that is neither
`length` nor an index (so for `c` and `p`): reading from `undefined` or `null`
throws, an object yields its own field or `undefined`, any other value yields
`undefined`. -/
def getProp {ν : Type} (v : JSValue ν) (key : String) : Except JSError (JSValue ν) :=
  match v with
  | .undefined => .error (typeErrorRead "undefined" key)
  | .null => .error (typeErrorRead "null" key)
  | .obj fields => .ok ((fields.lookup key).getD .undefined)
  | _ => .ok .undefined

/-! ## Module state, actions and the effect monad -/

/-- Identifier of a socket.io connection (`socket.id`). -/
abbrev SocketId := Nat

/-- The module-level variables of `server.js` together with the parts of the
environment they refer to: the `gps_data` slot of the store, the interval
timers that are scheduled in the runtime, and the registered connections. -/
structure Relay (ν : Type) where
  /-- Whether `redis` holds a client; false when `new Redis(...)` threw. -/
  redis : Bool
  isRedisConnected : Bool
  lastGPSData : JSValue ν
  gpsMonitoringInterval : Option Nat
  /-- Value of the key `gps_data` in the store; `none` when the key is absent. -/
  gps_data : Option String
  /-- Interval timers currently scheduled. -/
  timers : List Nat
  /-- Handle that the next `setInterval` returns. -/
  nextTimer : Nat
  /-- Connections registered with the socket.io server. -/
  clients : List SocketId

/-- Externally visible actions, in program order. -/
inductive Action (ν : Type) where
  | redisGet (key : String)
  | redisSet (key value : String)
  | ioEmit (event : String) (payload : JSValue ν)
  | socketEmit (socket : SocketId) (event : String) (payload : JSValue ν)
  | setInterval (timer ms : Nat)
  | clearInterval (timer : Nat)

/-- Result of running a piece of code: returned value or thrown error, the
state reached and the actions performed. -/
structure Outcome (ν α : Type) where
  result : Except JSError α
  state : Relay ν
  trace : List (Action ν)

/-- Code that reads and writes the module state, performs actions and may throw. -/
def Eff (ν α : Type) : Type := Relay ν → Outcome ν α

namespace Eff

variable {ν α β : Type}

/-- Code that returns `a`. -/
def ret (a : α) : Eff ν α := fun st => ⟨.ok a, st, []⟩

/-- Sequencing: a throw in `m` skips `f`. -/
def andThen (m : Eff ν α) (f : α → Eff ν β) : Eff ν β := fun st =>
  let first := m st
  match first.result with
  | .ok a =>
    let second := f a first.state
    ⟨second.result, second.state, first.trace ++ second.trace⟩
  | .error e => ⟨.error e, first.state, first.trace⟩

instance instMonad : Monad (Eff ν) where
  pure := ret
  bind := andThen

/-- The statement `throw e`. -/
def throwJS (e : JSError) : Eff ν α := fun st => ⟨.error e, st, []⟩

/-- An expression that evaluates to a value or throws. -/
def ofExcept : Except JSError α → Eff ν α
  | .ok a => ret a
  | .error e => throwJS e

/-- The statement `try { body } catch (error) { handler error }`. -/
def tryCatch (body : Eff ν α) (handler : JSError → Eff ν α) : Eff ν α := fun st =>
  let first := body st
  match first.result with
  | .ok a => ⟨.ok a, first.state, first.trace⟩
  | .error e =>
    let second := handler e first.state
    ⟨second.result, second.state, first.trace ++ second.trace⟩

/-- Read the module state. -/
def getState : Eff ν (Relay ν) := fun st => ⟨.ok st, st, []⟩

/-- Update the module state. -/
def modifyState (f : Relay ν → Relay ν) : Eff ν Unit := fun st => ⟨.ok (), f st, []⟩

/-- Perform one action. -/
def act (a : Action ν) : Eff ν Unit := fun st => ⟨.ok (), st, [a]⟩

end Eff

open Eff

/-! ## The environment: store client, socket.io, timers -/

/-- How the store answers the one command a handler sends. -/
inductive StoreReply where
  | ok
  | fail (message : String)

/-- The call `await redis.get(key)`: a `TypeError` when `redis` is undefined;
otherwise the command is sent and the store either returns the slot (`null`
when absent) or the promise rejects. -/
def redisGet {ν : Type} (net : StoreReply) (key : String) : Eff ν (Option String) := fun st =>
  if st.redis then
    match net with
    | .ok => ⟨.ok st.gps_data, st, [.redisGet key]⟩
    | .fail msg => ⟨.error ⟨"Error", msg⟩, st, [.redisGet key]⟩
  else ⟨.error (typeErrorRead "undefined" "get"), st, []⟩

/-- The call `await redis.set(key, value)`: a `TypeError` when `redis` is
undefined; otherwise the command is sent and the store either overwrites the
slot or the promise rejects, the slot being left as it was. -/
def redisSet {ν : Type} (net : StoreReply) (key value : String) : Eff ν Unit := fun st =>
  if st.redis then
    match net with
    | .ok => ⟨.ok (), { st with gps_data := some value }, [.redisSet key value]⟩
    | .fail msg => ⟨.error ⟨"Error", msg⟩, st, [.redisSet key value]⟩
  else ⟨.error (typeErrorRead "undefined" "set"), st, []⟩

/-- The call `setInterval(callback, ms)`: schedules a fresh timer and returns its handle. -/
def setInterval {ν : Type} (ms : Nat) : Eff ν Nat := fun st =>
  ⟨.ok st.nextTimer,
   { st with timers := st.timers ++ [st.nextTimer], nextTimer := st.nextTimer + 1 },
   [.setInterval st.nextTimer ms]⟩

/-- The call `clearInterval(handle)`: the timer is no longer scheduled. -/
def clearInterval {ν : Type} (timer : Nat) : Eff ν Unit := fun st =>
  ⟨.ok (), { st with timers := st.timers.filter (fun t => t != timer) }, [.clearInterval timer]⟩

/-- A message received by a connection: event name and payload. -/
abbrev Message (ν : Type) := String × JSValue ν

/-- Messages that connection `c`, registered among `clients`, receives from one
action: `io.emit` reaches every registered connection, `socket.emit` reaches
that socket only. -/
def received {ν : Type} (clients : List SocketId) (c : SocketId) : Action ν → List (Message ν)
  | .ioEmit event payload => if c ∈ clients then [(event, payload)] else []
  | .socketEmit s event payload => if s = c then [(event, payload)] else []
  | _ => []

/-- Messages that connection `c` receives from a trace, in order. -/
def inbox {ν : Type} (clients : List SocketId) (c : SocketId) (trace : List (Action ν)) :
    List (Message ν) :=
  (trace.map (received clients c)).flatten

/-- Replies sent with `socket.emit` during a trace: receiver, event, payload. -/
def replies {ν : Type} : List (Action ν) → List (SocketId × String × JSValue ν)
  | [] => []
  | .socketEmit s event payload :: rest => (s, event, payload) :: replies rest
  | _ :: rest => replies rest

/-- Payloads broadcast with `io.emit` under event name `event` during a trace. -/
def broadcasts {ν : Type} (event : String) : List (Action ν) → List (JSValue ν)
  | [] => []
  | .ioEmit e payload :: rest =>
    if e = event then payload :: broadcasts event rest else broadcasts event rest
  | _ :: rest => broadcasts event rest

/-- Values written to the store during a trace. -/
def storeWrites {ν : Type} : List (Action ν) → List (String × String)
  | [] => []
  | .redisSet key value :: rest => (key, value) :: storeWrites rest
  | _ :: rest => storeWrites rest

/-! ## The relay code of `server.js` -/

/-- The function `broadcastGPSData(gpsData)`, lines 58-61. -/
def broadcastGPSData {ν : Type} (gpsData : JSValue ν) : Eff ν Unit :=
  act (.ioEmit "gps-data-update" gpsData)

/-- The interval callback of `startRedisGPSMonitoring`, lines 76-97: one poll tick. -/
def pollTick {ν : Type} (E : Engine ν) (net : StoreReply) : Eff ν Unit := do
  let st ← getState
  if !st.redis || !st.isRedisConnected then
    pure ()
  else
    tryCatch
      (do
        let result ← redisGet net "gps_data"
        match result with
        | none => pure ()
        | some text =>
          if text != "" then do
            let currentGPSData ← ofExcept (E.jsonParse text)
            let now ← getState
            if !toBoolean E now.lastGPSData
                || E.jsonStringify currentGPSData != E.jsonStringify now.lastGPSData then do
              broadcastGPSData currentGPSData
              modifyState (fun s => { s with lastGPSData := currentGPSData })
            else pure ()
          else pure ())
      (fun _ => pure ())

/-- The function `startRedisGPSMonitoring()`, lines 67-98. -/
def startRedisGPSMonitoring {ν : Type} : Eff ν Unit := do
  let st ← getState
  if !st.redis || !st.isRedisConnected then
    pure ()
  else do
    let handle ← setInterval 2000
    modifyState (fun s => { s with gpsMonitoringInterval := some handle })

/-- The function `stopRedisGPSMonitoring()`, lines 100-106. -/
def stopRedisGPSMonitoring {ν : Type} : Eff ν Unit := do
  let st ← getState
  match st.gpsMonitoringInterval with
  | some handle => do
    clearInterval handle
    modifyState (fun s => { s with gpsMonitoringInterval := none })
  | none => pure ()

/-- The callback `redis.on('connect')`, lines 116-119. -/
def onRedisConnect {ν : Type} : Eff ν Unit :=
  modifyState (fun s => { s with isRedisConnected := true })

/-- The callback `redis.on('error')`, lines 121-125. -/
def onRedisError {ν : Type} : Eff ν Unit :=
  modifyState (fun s => { s with isRedisConnected := false })

/-- The callback `redis.on('ready')`, lines 127-133. -/
def onRedisReady {ν : Type} : Eff ν Unit := do
  modifyState (fun s => { s with isRedisConnected := true })
  startRedisGPSMonitoring

/-- The callback `redis.on('close')`, lines 135-138. -/
def onRedisClose {ν : Type} : Eff ν Unit :=
  modifyState (fun s => { s with isRedisConnected := false })

/-- Payload of a `gps-error` reply: the object `{ error, message }`. -/
def gpsError {ν : Type} (error message : String) : JSValue ν :=
  .obj [("error", .str error), ("message", .str message)]

/-- The handler `socket.on('request-gps-data')`, lines 200-227. -/
def requestGpsData {ν : Type} (E : Engine ν) (net : StoreReply) (socket : SocketId) :
    Eff ν Unit := do
  let st ← getState
  if !st.redis || !st.isRedisConnected then
    act (.socketEmit socket "gps-error"
      (gpsError "Redis not available" "Redis connection is not established"))
  else
    tryCatch
      (do
        let result ← redisGet net "gps_data"
        match result with
        | none =>
          act (.socketEmit socket "gps-error"
            (gpsError "No GPS data found" "gps_data key not found in Redis"))
        | some text =>
          if text != "" then do
            let gpsData ← ofExcept (E.jsonParse text)
            act (.socketEmit socket "gps-data" gpsData)
          else
            act (.socketEmit socket "gps-error"
              (gpsError "No GPS data found" "gps_data key not found in Redis")))
      (fun error =>
        act (.socketEmit socket "gps-error"
          (gpsError "Failed to fetch GPS data" error.message)))

/-- The test `!gpsData.c || !gpsData.p` of line 233; it throws when `gpsData`
is `undefined` or `null`. -/
def invalidFormat {ν : Type} (E : Engine ν) (gpsData : JSValue ν) : Eff ν Bool := do
  let c ← ofExcept (getProp gpsData "c")
  if !toBoolean E c then
    pure true
  else do
    let p ← ofExcept (getProp gpsData "p")
    pure (!toBoolean E p)

/-- Payload of the `gps-update-success` acknowledgement, lines 248-252. -/
def updateSuccess {ν : Type} (gpsData : JSValue ν) : JSValue ν :=
  .obj [("success", .bool true), ("message", .str "GPS data updated successfully"),
        ("data", gpsData)]

/-- The `message` of the validation error, line 236. -/
def expectedFormat : String :=
  "Expected format: \x7b\"c\": \x7b...\x7d, \"p\": \x7b...\x7d, \"s\": \"active\"\x7d"

/-- The handler `socket.on('update-gps-data')`, lines 230-260. -/
def updateGpsData {ν : Type} (E : Engine ν) (net : StoreReply) (socket : SocketId)
    (gpsData : JSValue ν) : Eff ν Unit :=
  tryCatch
    (do
      let invalid ← invalidFormat E gpsData
      if invalid then
        act (.socketEmit socket "gps-error"
          (gpsError "Invalid GPS data format" expectedFormat))
      else do
        redisSet net "gps_data" (E.jsonStringify gpsData)
        broadcastGPSData gpsData
        act (.socketEmit socket "gps-update-success" (updateSuccess gpsData)))
    (fun error =>
      act (.socketEmit socket "gps-error"
        (gpsError "Failed to update GPS data" error.message)))

/-- The handler `socket.on('ping')`, lines 263-265; `now` is `Date.now()`. -/
def ping {ν : Type} (socket : SocketId) (now : ν) : Eff ν Unit :=
  act (.socketEmit socket "pong" (.obj [("timestamp", .num now)]))

/-- The callback `io.on('connection')`, lines 185-192: socket.io has registered
the connection; the server greets it. `now` is `new Date().toISOString()`. -/
def onConnection {ν : Type} (socket : SocketId) (now : String) : Eff ν Unit := do
  modifyState (fun s => { s with clients := s.clients ++ [socket] })
  act (.socketEmit socket "welcome"
    (.obj [("message", .str "Connected to AU Journey WebSocket server"),
           ("timestamp", .str now)]))

/-- The callback `socket.on('disconnect')`, lines 195-197: socket.io has
removed the connection; the server only logs. -/
def onDisconnect {ν : Type} (socket : SocketId) : Eff ν Unit :=
  modifyState (fun s => { s with clients := s.clients.filter (fun c => c != socket) })

/-- A producer writes `text` under `gps_data` in the store without going
through the relay. -/
def directWrite {ν : Type} (text : String) (st : Relay ν) : Relay ν :=
  { st with gps_data := some text }

/-- Module state right after the module body ran: `lastGPSData = null`,
`gpsMonitoringInterval = null`, `isRedisConnected = false`, no timer, no
connection; `client` tells whether `new Redis(...)` returned a client and
`slot` is what the store holds. -/
def boot {ν : Type} (client : Bool) (slot : Option String) : Relay ν :=
  { redis := client
    isRedisConnected := false
    lastGPSData := .null
    gpsMonitoringInterval := none
    gps_data := slot
    timers := []
    nextTimer := 0
    clients := [] }

/-- The interval timer fires `n` times in a row, every store read answered with
`net`; returns the final state and the trace of each tick. -/
def pollTicks {ν : Type} (E : Engine ν) (net : StoreReply) :
    Nat → Relay ν → Relay ν × List (List (Action ν))
  | 0, st => (st, [])
  | n + 1, st =>
    let out := pollTick E net st
    let later := pollTicks E net n out.state
    (later.1, out.trace :: later.2)

/-! ## A reference engine on the integer fragment of JSON

`refEngine` implements `JSON.stringify` and `JSON.parse` for values whose
numbers are integers (of magnitude below `10^21`, which `JSON.stringify` prints
in positional notation). Where it departs from a real engine: a number literal
with a fraction or an exponent and a surrogate `\u` escape are reported as a
syntax error, object keys keep their textual order (a real engine moves
array-index keys first), and the message of the `SyntaxError` is fixed. The
theorems quantify over every `Engine`; this instance evaluates closed examples. -/

namespace Ref

/-- The character `"`. -/
def dquote : Char := Char.ofNat 34

/-- The character `\`. -/
def backslash : Char := Char.ofNat 92

/-- The character that opens an object. -/
def lbrace : Char := Char.ofNat 123

/-- The character that closes an object. -/
def rbrace : Char := Char.ofNat 125

/-- Lower-case hexadecimal digit of `n < 16`. -/
def hexDigit (n : Nat) : Char :=
  if n < 10 then Char.ofNat (48 + n) else Char.ofNat (87 + n)

/-- How `JSON.stringify` writes one character of a string. -/
def escapeChar (c : Char) : List Char :=
  if c = dquote then [backslash, dquote]
  else if c = backslash then [backslash, backslash]
  else if c = Char.ofNat 8 then [backslash, 'b']
  else if c = Char.ofNat 12 then [backslash, 'f']
  else if c = Char.ofNat 10 then [backslash, 'n']
  else if c = Char.ofNat 13 then [backslash, 'r']
  else if c = Char.ofNat 9 then [backslash, 't']
  else if c.toNat < 32 then
    [backslash, 'u', '0', '0', hexDigit (c.toNat / 16), hexDigit (c.toNat % 16)]
  else [c]

/-- A string literal of JSON. -/
def quote (s : String) : List Char :=
  dquote :: (s.toList.map escapeChar).flatten ++ [dquote]

mutual
/-- Text of a value; `undefined` inside an array is written `null`. -/
def stringifyValue : JSValue Int → List Char
  | .undefined => "null".toList
  | .null => "null".toList
  | .bool true => "true".toList
  | .bool false => "false".toList
  | .num n => (toString n).toList
  | .str s => quote s
  | .arr items => '[' :: stringifyItems items ++ [']']
  | .obj fields => lbrace :: stringifyFields fields ++ [rbrace]
/-- Text of the elements of an array, separated by commas. -/
def stringifyItems : List (JSValue Int) → List Char
  | [] => []
  | [v] => stringifyValue v
  | v :: rest => stringifyValue v ++ ',' :: stringifyItems rest
/-- Text of the members of an object; a member whose value is `undefined` is left out. -/
def stringifyFields : List (String × JSValue Int) → List Char
  | [] => []
  | (_, .undefined) :: rest => stringifyFields rest
  | (k, v) :: rest =>
    match stringifyFields rest with
    | [] => quote k ++ ':' :: stringifyValue v
    | more => quote k ++ ':' :: stringifyValue v ++ ',' :: more
end

/-- JSON white space. -/
def isWs (c : Char) : Bool :=
  c = ' ' || c = Char.ofNat 9 || c = Char.ofNat 10 || c = Char.ofNat 13

/-- Drop leading white space. -/
def skipWs : List Char → List Char
  | [] => []
  | c :: cs => if isWs c then skipWs cs else c :: cs

/-- Decimal digit test. -/
def isDigit (c : Char) : Bool := 48 ≤ c.toNat && c.toNat ≤ 57

/-- Read a run of decimal digits onto `acc`. -/
def readDigits : List Char → Nat → Nat × List Char
  | [], acc => (acc, [])
  | c :: cs, acc =>
    if isDigit c then readDigits cs (10 * acc + (c.toNat - 48)) else (acc, c :: cs)

/-- Value of a hexadecimal digit. -/
def hexVal (c : Char) : Option Nat :=
  if isDigit c then some (c.toNat - 48)
  else if 97 ≤ c.toNat && c.toNat ≤ 102 then some (c.toNat - 87)
  else if 65 ≤ c.toNat && c.toNat ≤ 70 then some (c.toNat - 55)
  else none

/-- Code point of the escape `\uXXXX`, surrogates excluded. -/
def unicodeEscape (a b c d : Char) : Option Char :=
  match hexVal a, hexVal b, hexVal c, hexVal d with
  | some x, some y, some z, some w =>
    let code := ((x * 16 + y) * 16 + z) * 16 + w
    if 55296 ≤ code && code ≤ 57343 then none else some (Char.ofNat code)
  | _, _, _, _ => none

/-- Read a string literal after its opening quote; `acc` holds the characters
read so far, last first. -/
def readString : List Char → List Char → Option (String × List Char)
  | [], _ => none
  | c :: cs, acc =>
    if c = dquote then some (String.mk acc.reverse, cs)
    else if c = backslash then
      match cs with
      | [] => none
      | 'u' :: a :: b :: x :: y :: rest =>
        match unicodeEscape a b x y with
        | some ch => readString rest (ch :: acc)
        | none => none
      | e :: rest =>
        if e = dquote then readString rest (dquote :: acc)
        else if e = backslash then readString rest (backslash :: acc)
        else if e = '/' then readString rest ('/' :: acc)
        else if e = 'b' then readString rest (Char.ofNat 8 :: acc)
        else if e = 'f' then readString rest (Char.ofNat 12 :: acc)
        else if e = 'n' then readString rest (Char.ofNat 10 :: acc)
        else if e = 'r' then readString rest (Char.ofNat 13 :: acc)
        else if e = 't' then readString rest (Char.ofNat 9 :: acc)
        else none
    else if c.toNat < 32 then none
    else readString cs (c :: acc)

/-- Read an integer literal: optional minus, then `0` or a digit run without a
leading zero; a fraction or an exponent is not in this fragment. -/
def readNumber (cs : List Char) : Option (Int × List Char) :=
  let signed : Bool × List Char :=
    match cs with
    | '-' :: rest => (true, rest)
    | _ => (false, cs)
  match signed.2 with
  | [] => none
  | d :: rest =>
    if !isDigit d then none
    else
      let body : Nat × List Char := if d = '0' then (0, rest) else readDigits (d :: rest) 0
      let value : Int := if signed.1 then -(body.1 : Int) else (body.1 : Int)
      match body.2 with
      | [] => some (value, [])
      | t :: more =>
        if isDigit t || t = '.' || t = 'e' || t = 'E' then none
        else some (value, t :: more)

/-- Define member `k` of an object under construction: a repeated key keeps
its place and takes the later value. -/
def setField (fields : List (String × JSValue Int)) (k : String) (v : JSValue Int) :
    List (String × JSValue Int) :=
  match fields with
  | [] => [(k, v)]
  | (k1, v1) :: rest => if k1 = k then (k, v) :: rest else (k1, v1) :: setField rest k v

mutual
/-- Parse one value; `none` is a syntax error (or no fuel left). -/
def parseValue : Nat → List Char → Option (JSValue Int × List Char)
  | 0, _ => none
  | fuel + 1, cs =>
    match skipWs cs with
    | 'n' :: 'u' :: 'l' :: 'l' :: rest => some (.null, rest)
    | 't' :: 'r' :: 'u' :: 'e' :: rest => some (.bool true, rest)
    | 'f' :: 'a' :: 'l' :: 's' :: 'e' :: rest => some (.bool false, rest)
    | '[' :: rest =>
      match skipWs rest with
      | ']' :: tail => some (.arr [], tail)
      | _ => (parseItems fuel rest).map (fun r => (.arr r.1, r.2))
    | c :: rest =>
      if c = dquote then (readString rest []).map (fun r => (.str r.1, r.2))
      else if c = lbrace then
        match skipWs rest with
        | d :: tail =>
          if d = rbrace then some (.obj [], tail)
          else (parseMembers fuel rest []).map (fun r => (.obj r.1, r.2))
        | [] => none
      else (readNumber (c :: rest)).map (fun r => (.num r.1, r.2))
    | [] => none
/-- Parse the elements of an array up to its closing bracket. -/
def parseItems : Nat → List Char → Option (List (JSValue Int) × List Char)
  | 0, _ => none
  | fuel + 1, cs =>
    match parseValue fuel cs with
    | none => none
    | some (v, rest) =>
      match skipWs rest with
      | ',' :: tail => (parseItems fuel tail).map (fun r => (v :: r.1, r.2))
      | ']' :: tail => some ([v], tail)
      | _ => none
/-- Parse the members of an object up to its closing brace. -/
def parseMembers : Nat → List Char → List (String × JSValue Int) →
    Option (List (String × JSValue Int) × List Char)
  | 0, _, _ => none
  | fuel + 1, cs, acc =>
    match skipWs cs with
    | q :: rest =>
      if q = dquote then
        match readString rest [] with
        | none => none
        | some (k, afterKey) =>
          match skipWs afterKey with
          | ':' :: afterColon =>
            match parseValue fuel afterColon with
            | none => none
            | some (v, afterValue) =>
              match skipWs afterValue with
              | d :: tail =>
                if d = ',' then parseMembers fuel tail (setField acc k v)
                else if d = rbrace then some (setField acc k v, tail)
                else none
              | [] => none
          | _ => none
      else none
    | [] => none
end

/-- Parse a whole text: one value surrounded by white space. -/
def parseText (text : String) : Option (JSValue Int) :=
  match parseValue (2 * text.length + 2) text.toList with
  | some (v, rest) => if skipWs rest = [] then some v else none
  | none => none

/-- The function `JSON.parse` of the reference engine. -/
def jsonParse (text : String) : Except JSError (JSValue Int) :=
  match parseText text with
  | some v => .ok v
  | none => .error { name := "SyntaxError", message := "Unexpected token in JSON" }

end Ref

/-- The reference engine: integers as numbers, `Ref.jsonParse`, `Ref.stringifyValue`. -/
def refEngine : Engine Int where
  numToBoolean := fun n => n != 0
  jsonParse := Ref.jsonParse
  jsonStringify := fun v => String.mk (Ref.stringifyValue v)
  jsonParse_empty := fun _ h => Except.noConfusion h

/-- The record of the example scenario:
`{c: {lat: 1, lon: 2}, p: {lat: 0, lon: 0}, s: "active"}`. -/
def sampleRecord : JSValue Int :=
  .obj [("c", .obj [("lat", .num 1), ("lon", .num 2)]),
        ("p", .obj [("lat", .num 0), ("lon", .num 0)]),
        ("s", .str "active")]

/-- A second record, differing from `sampleRecord` in `c.lat`. -/
def otherRecord : JSValue Int :=
  .obj [("c", .obj [("lat", .num 5), ("lon", .num 2)]),
        ("p", .obj [("lat", .num 1), ("lon", .num 2)]),
        ("s", .str "active")]

/-- State reached by running `code` from `st`. -/
def Relay.after {ν : Type} (st : Relay ν) (code : Eff ν Unit) : Relay ν :=
  (code st).state

/-- A running relay: a client was created, the store holds nothing, the
connection came up (`connect`, then `ready`, which starts the poller) and the
connections `1` and `2` registered. -/
def liveRelay : Relay Int :=
  ((((boot true none).after onRedisConnect).after onRedisReady).after
    (onConnection 1 "2024-01-01T00:00:00.000Z")).after
    (onConnection 2 "2024-01-01T00:00:01.000Z")

/-- The running relay after a producer wrote `otherRecord` directly to the
store, a poll tick relayed it, and connection `1` then pushed `sampleRecord`
with `update-gps-data`: `sampleRecord` is the record last broadcast and the
record the store holds. -/
def staleRelay : Relay Int :=
  (((directWrite (refEngine.jsonStringify otherRecord) liveRelay).after
    (pollTick refEngine .ok)).after
    (updateGpsData refEngine .ok 1 sampleRecord))

/-- The running relay after the store connection closed: the client exists,
the connectivity flag is false. -/
def downRelay : Relay Int :=
  liveRelay.after onRedisClose

/-- A relay whose store connection came up, closed and came up again: the
`ready` callback ran twice. -/
def reconnectedRelay : Relay Int :=
  (((boot true none).after onRedisReady).after onRedisClose).after onRedisReady

/-! ## Facts about the effect monad and the property read -/

section Lemmas

variable {ν : Type}

theorem getProp_undefined_base (key : String) :
    getProp (JSValue.undefined : JSValue ν) key = .error (typeErrorRead "undefined" key) := rfl

theorem getProp_null_base (key : String) :
    getProp (JSValue.null : JSValue ν) key = .error (typeErrorRead "null" key) := rfl

/-- Whether a property read throws depends on the base value only. -/
theorem getProp_ok_of_ok {v a : JSValue ν} {k1 : String} (k2 : String)
    (h : getProp v k1 = .ok a) : ∃ b, getProp v k2 = .ok b := by
  cases v <;> simp [getProp] at h ⊢

/-- The validity test yields `true` without effect when a field reads as falsy. -/
theorem invalidFormat_of_falsy (E : Engine ν) (gpsData c : JSValue ν) (st : Relay ν)
    (hc : getProp gpsData "c" = .ok c)
    (h : toBoolean E c = false ∨ ∃ p, getProp gpsData "p" = .ok p ∧ toBoolean E p = false) :
    invalidFormat E gpsData st = ⟨.ok true, st, []⟩ := by
  cases hb : toBoolean E c
  · simp [invalidFormat, Bind.bind, Pure.pure, Eff.andThen, Eff.ofExcept, Eff.ret, hc, hb]
  · rcases h with h | ⟨p, hp, hpf⟩
    · simp [hb] at h
    · simp [invalidFormat, Bind.bind, Pure.pure, Eff.andThen, Eff.ofExcept, Eff.ret, hc, hb,
        hp, hpf]

/-- The validity test yields `false` without effect when both fields read as truthy. -/
theorem invalidFormat_of_truthy (E : Engine ν) (gpsData c p : JSValue ν) (st : Relay ν)
    (hc : getProp gpsData "c" = .ok c) (hct : toBoolean E c = true)
    (hp : getProp gpsData "p" = .ok p) (hpt : toBoolean E p = true) :
    invalidFormat E gpsData st = ⟨.ok false, st, []⟩ := by
  simp [invalidFormat, Bind.bind, Pure.pure, Eff.andThen, Eff.ofExcept, Eff.ret, hc, hct, hp,
    hpt]

/-- The validity test throws without effect when the payload has no properties. -/
theorem invalidFormat_of_throw (E : Engine ν) (gpsData : JSValue ν) (e : JSError) (st : Relay ν)
    (hc : getProp gpsData "c" = .error e) :
    invalidFormat E gpsData st = ⟨.error e, st, []⟩ := by
  simp [invalidFormat, Bind.bind, Eff.andThen, Eff.ofExcept, Eff.throwJS, hc]

/-- The validity test has no effect, whatever it yields. -/
theorem invalidFormat_pure (E : Engine ν) (gpsData : JSValue ν) (st : Relay ν) :
    ∃ r, invalidFormat E gpsData st = ⟨r, st, []⟩ := by
  cases hc : getProp gpsData "c" with
  | error e => exact ⟨_, invalidFormat_of_throw E gpsData e st hc⟩
  | ok c =>
    obtain ⟨p, hp⟩ := getProp_ok_of_ok "p" hc
    cases hct : toBoolean E c
    · exact ⟨_, invalidFormat_of_falsy E gpsData c st hc (Or.inl hct)⟩
    · cases hpt : toBoolean E p
      · exact ⟨_, invalidFormat_of_falsy E gpsData c st hc (Or.inr ⟨p, hp, hpt⟩)⟩
      · exact ⟨_, invalidFormat_of_truthy E gpsData c p st hc hct hp hpt⟩

/-- The handler `update-gps-data` on a payload that fails the validity test. -/
theorem updateGpsData_invalid (E : Engine ν) (net : StoreReply) (socket : SocketId)
    (gpsData : JSValue ν) (st : Relay ν)
    (h : invalidFormat E gpsData st = ⟨.ok true, st, []⟩) :
    updateGpsData E net socket gpsData st =
      ⟨.ok (), st,
        [.socketEmit socket "gps-error" (gpsError "Invalid GPS data format" expectedFormat)]⟩ := by
  simp [updateGpsData, Bind.bind, Eff.andThen, Eff.tryCatch, Eff.act, h]

/-- The handler `update-gps-data` on a payload whose property read throws. -/
theorem updateGpsData_throw (E : Engine ν) (net : StoreReply) (socket : SocketId)
    (gpsData : JSValue ν) (e : JSError) (st : Relay ν)
    (h : invalidFormat E gpsData st = ⟨.error e, st, []⟩) :
    updateGpsData E net socket gpsData st =
      ⟨.ok (), st,
        [.socketEmit socket "gps-error" (gpsError "Failed to update GPS data" e.message)]⟩ := by
  simp [updateGpsData, Bind.bind, Eff.andThen, Eff.tryCatch, Eff.act, h]

/-- The handler `update-gps-data` on a payload that passes the validity test,
when `redis` is undefined. -/
theorem updateGpsData_no_client (E : Engine ν) (net : StoreReply) (socket : SocketId)
    (gpsData : JSValue ν) (st : Relay ν)
    (h : invalidFormat E gpsData st = ⟨.ok false, st, []⟩) (hredis : st.redis = false) :
    updateGpsData E net socket gpsData st =
      ⟨.ok (), st,
        [.socketEmit socket "gps-error"
          (gpsError "Failed to update GPS data" (typeErrorRead "undefined" "set").message)]⟩ := by
  simp [updateGpsData, Bind.bind, Eff.andThen, Eff.tryCatch, Eff.act, h, redisSet, hredis]

/-- The handler `update-gps-data` on a payload that passes the validity test,
when the store rejects the write. -/
theorem updateGpsData_store_failure (E : Engine ν) (msg : String) (socket : SocketId)
    (gpsData : JSValue ν) (st : Relay ν)
    (h : invalidFormat E gpsData st = ⟨.ok false, st, []⟩) (hredis : st.redis = true) :
    updateGpsData E (.fail msg) socket gpsData st =
      ⟨.ok (), st,
        [.redisSet "gps_data" (E.jsonStringify gpsData),
         .socketEmit socket "gps-error" (gpsError "Failed to update GPS data" msg)]⟩ := by
  simp [updateGpsData, Bind.bind, Eff.andThen, Eff.tryCatch, Eff.act, h, redisSet, hredis]

/-- The handler `update-gps-data` on a payload that passes the validity test,
when the store accepts the write. -/
theorem updateGpsData_accepted (E : Engine ν) (socket : SocketId)
    (gpsData : JSValue ν) (st : Relay ν)
    (h : invalidFormat E gpsData st = ⟨.ok false, st, []⟩) (hredis : st.redis = true) :
    updateGpsData E .ok socket gpsData st =
      ⟨.ok (), { st with gps_data := some (E.jsonStringify gpsData) },
        [.redisSet "gps_data" (E.jsonStringify gpsData),
         .ioEmit "gps-data-update" gpsData,
         .socketEmit socket "gps-update-success" (updateSuccess gpsData)]⟩ := by
  simp [updateGpsData, Bind.bind, Eff.andThen, Eff.tryCatch, Eff.act, h, redisSet, hredis,
    broadcastGPSData]

/-- A text that parses is not the empty text. -/
theorem text_ne_empty_of_parse (E : Engine ν) {text : String} {record : JSValue ν}
    (h : E.jsonParse text = .ok record) : (text != "") = true := by
  have hne : text ≠ "" := by
    rintro rfl
    exact E.jsonParse_empty _ h
  simpa using hne

/-- The handler `request-gps-data` when the store is unavailable. -/
theorem requestGpsData_unavailable (E : Engine ν) (net : StoreReply) (socket : SocketId)
    (st : Relay ν) (h : st.redis = false ∨ st.isRedisConnected = false) :
    requestGpsData E net socket st =
      ⟨.ok (), st,
        [.socketEmit socket "gps-error"
          (gpsError "Redis not available" "Redis connection is not established")]⟩ := by
  rcases h with h | h <;>
    simp [requestGpsData, Bind.bind, Eff.andThen, Eff.getState, Eff.act, h]

/-- The handler `request-gps-data` when the read is rejected. -/
theorem requestGpsData_read_failure (E : Engine ν) (msg : String) (socket : SocketId)
    (st : Relay ν) (hredis : st.redis = true) (hconn : st.isRedisConnected = true) :
    requestGpsData E (.fail msg) socket st =
      ⟨.ok (), st,
        [.redisGet "gps_data",
         .socketEmit socket "gps-error" (gpsError "Failed to fetch GPS data" msg)]⟩ := by
  simp [requestGpsData, Bind.bind, Eff.andThen, Eff.getState, Eff.act, Eff.tryCatch, redisGet,
    hredis, hconn]

/-- The handler `request-gps-data` when the slot is absent or holds the empty text. -/
theorem requestGpsData_not_found (E : Engine ν) (socket : SocketId)
    (st : Relay ν) (hredis : st.redis = true) (hconn : st.isRedisConnected = true)
    (hslot : st.gps_data = none ∨ st.gps_data = some "") :
    requestGpsData E .ok socket st =
      ⟨.ok (), st,
        [.redisGet "gps_data",
         .socketEmit socket "gps-error"
           (gpsError "No GPS data found" "gps_data key not found in Redis")]⟩ := by
  rcases hslot with h | h <;>
    simp [requestGpsData, Bind.bind, Eff.andThen, Eff.getState, Eff.act, Eff.tryCatch, redisGet,
      hredis, hconn, h]

/-- The handler `request-gps-data` when the slot holds a text that parses. -/
theorem requestGpsData_found (E : Engine ν) (socket : SocketId)
    (st : Relay ν) (text : String) (record : JSValue ν)
    (hredis : st.redis = true) (hconn : st.isRedisConnected = true)
    (hslot : st.gps_data = some text) (hparse : E.jsonParse text = .ok record) :
    requestGpsData E .ok socket st =
      ⟨.ok (), st, [.redisGet "gps_data", .socketEmit socket "gps-data" record]⟩ := by
  have hne := text_ne_empty_of_parse E hparse
  simp [requestGpsData, Bind.bind, Eff.andThen, Eff.getState, Eff.act, Eff.tryCatch, redisGet,
    hredis, hconn, hslot, hne, hparse, Eff.ofExcept, Eff.ret]

/-- The handler `request-gps-data` when the slot holds a non-empty text that does not parse. -/
theorem requestGpsData_unparseable (E : Engine ν) (socket : SocketId)
    (st : Relay ν) (text : String) (e : JSError)
    (hredis : st.redis = true) (hconn : st.isRedisConnected = true)
    (hslot : st.gps_data = some text) (hne : (text != "") = true)
    (hparse : E.jsonParse text = .error e) :
    requestGpsData E .ok socket st =
      ⟨.ok (), st,
        [.redisGet "gps_data",
         .socketEmit socket "gps-error" (gpsError "Failed to fetch GPS data" e.message)]⟩ := by
  simp [requestGpsData, Bind.bind, Eff.andThen, Eff.getState, Eff.act, Eff.tryCatch, redisGet,
    hredis, hconn, hslot, hne, hparse, Eff.ofExcept, Eff.throwJS]

/-- A poll tick when the store is unavailable. -/
theorem pollTick_unavailable (E : Engine ν) (net : StoreReply) (st : Relay ν)
    (h : st.redis = false ∨ st.isRedisConnected = false) :
    pollTick E net st = ⟨.ok (), st, []⟩ := by
  rcases h with h | h <;>
    simp [pollTick, Bind.bind, Pure.pure, Eff.andThen, Eff.getState, Eff.ret, h]

/-- A poll tick when the read is rejected. -/
theorem pollTick_read_failure (E : Engine ν) (msg : String) (st : Relay ν)
    (hredis : st.redis = true) (hconn : st.isRedisConnected = true) :
    pollTick E (.fail msg) st = ⟨.ok (), st, [.redisGet "gps_data"]⟩ := by
  simp [pollTick, Bind.bind, Pure.pure, Eff.andThen, Eff.getState, Eff.ret, Eff.tryCatch,
    redisGet, hredis, hconn]

/-- A poll tick when the slot is absent or holds the empty text. -/
theorem pollTick_not_found (E : Engine ν) (st : Relay ν)
    (hredis : st.redis = true) (hconn : st.isRedisConnected = true)
    (hslot : st.gps_data = none ∨ st.gps_data = some "") :
    pollTick E .ok st = ⟨.ok (), st, [.redisGet "gps_data"]⟩ := by
  rcases hslot with h | h <;>
    simp [pollTick, Bind.bind, Pure.pure, Eff.andThen, Eff.getState, Eff.ret, Eff.tryCatch,
      redisGet, hredis, hconn, h]

/-- A poll tick when the slot holds a text that does not parse. -/
theorem pollTick_unparseable (E : Engine ν) (st : Relay ν) (text : String) (e : JSError)
    (hredis : st.redis = true) (hconn : st.isRedisConnected = true)
    (hslot : st.gps_data = some text) (hparse : E.jsonParse text = .error e) :
    pollTick E .ok st = ⟨.ok (), st, [.redisGet "gps_data"]⟩ := by
  cases hne : (text != "") <;>
    simp [pollTick, Bind.bind, Pure.pure, Eff.andThen, Eff.getState, Eff.ret, Eff.tryCatch,
      redisGet, hredis, hconn, hslot, hne, hparse, Eff.ofExcept, Eff.throwJS]

/-- A poll tick that reads a record while the cache is falsy or serializes
differently: one broadcast, and the cache takes the record. -/
theorem pollTick_broadcast (E : Engine ν) (st : Relay ν) (text : String) (record : JSValue ν)
    (hredis : st.redis = true) (hconn : st.isRedisConnected = true)
    (hslot : st.gps_data = some text) (hparse : E.jsonParse text = .ok record)
    (hdiff : toBoolean E st.lastGPSData = false
      ∨ E.jsonStringify record ≠ E.jsonStringify st.lastGPSData) :
    pollTick E .ok st =
      ⟨.ok (), { st with lastGPSData := record },
        [.redisGet "gps_data", .ioEmit "gps-data-update" record]⟩ := by
  have hne := text_ne_empty_of_parse E hparse
  rcases hdiff with h | h <;>
    simp [pollTick, Bind.bind, Pure.pure, Eff.andThen, Eff.getState, Eff.ret, Eff.tryCatch,
      redisGet, hredis, hconn, hslot, hne, hparse, Eff.ofExcept, Eff.act, Eff.modifyState,
      broadcastGPSData, h]

/-- A poll tick that reads a record serializing like the truthy cached one: nothing happens. -/
theorem pollTick_same (E : Engine ν) (st : Relay ν) (text : String) (record : JSValue ν)
    (hredis : st.redis = true) (hconn : st.isRedisConnected = true)
    (hslot : st.gps_data = some text) (hparse : E.jsonParse text = .ok record)
    (hcache : toBoolean E st.lastGPSData = true)
    (hsame : E.jsonStringify record = E.jsonStringify st.lastGPSData) :
    pollTick E .ok st = ⟨.ok (), st, [.redisGet "gps_data"]⟩ := by
  have hne := text_ne_empty_of_parse E hparse
  simp [pollTick, Bind.bind, Pure.pure, Eff.andThen, Eff.getState, Eff.ret, Eff.tryCatch,
    redisGet, hredis, hconn, hslot, hne, hparse, Eff.ofExcept, hcache, hsame]

/-- Ticks that find the cached record in the store do nothing, however many. -/
theorem pollTicks_same (E : Engine ν) (st : Relay ν) (text : String) (record : JSValue ν)
    (hredis : st.redis = true) (hconn : st.isRedisConnected = true)
    (hslot : st.gps_data = some text) (hparse : E.jsonParse text = .ok record)
    (hcache : toBoolean E st.lastGPSData = true)
    (hsame : E.jsonStringify record = E.jsonStringify st.lastGPSData) (n : Nat) :
    pollTicks E .ok n st = (st, List.replicate n [.redisGet "gps_data"]) := by
  induction n with
  | zero => rfl
  | succ k ih =>
    simp [pollTicks, pollTick_same E st text record hredis hconn hslot hparse hcache hsame, ih,
      List.replicate_succ]

/-- Every run of `request-gps-data` completes, leaves the state as it was and
consists of at most one store read followed by one reply to the requester. -/
theorem requestGpsData_cases (E : Engine ν) (net : StoreReply) (socket : SocketId)
    (st : Relay ν) :
    ∃ event payload, (event = "gps-data" ∨ event = "gps-error") ∧
      (requestGpsData E net socket st = ⟨.ok (), st, [.socketEmit socket event payload]⟩ ∨
       requestGpsData E net socket st =
        ⟨.ok (), st, [.redisGet "gps_data", .socketEmit socket event payload]⟩) := by
  cases hredis : st.redis
  · exact ⟨_, _, Or.inr rfl, Or.inl (requestGpsData_unavailable E net socket st (Or.inl hredis))⟩
  cases hconn : st.isRedisConnected
  · exact ⟨_, _, Or.inr rfl, Or.inl (requestGpsData_unavailable E net socket st (Or.inr hconn))⟩
  cases net with
  | fail msg =>
    exact ⟨_, _, Or.inr rfl, Or.inr (requestGpsData_read_failure E msg socket st hredis hconn)⟩
  | ok =>
    cases hslot : st.gps_data with
    | none =>
      exact ⟨_, _, Or.inr rfl,
        Or.inr (requestGpsData_not_found E socket st hredis hconn (Or.inl hslot))⟩
    | some text =>
      cases hne : (text != "")
      · have htext : text = "" := by simpa using hne
        subst htext
        exact ⟨_, _, Or.inr rfl,
          Or.inr (requestGpsData_not_found E socket st hredis hconn (Or.inr hslot))⟩
      · cases hparse : E.jsonParse text with
        | error e =>
          exact ⟨_, _, Or.inr rfl,
            Or.inr (requestGpsData_unparseable E socket st text e hredis hconn hslot hne hparse)⟩
        | ok record =>
          exact ⟨_, _, Or.inl rfl,
            Or.inr (requestGpsData_found E socket st text record hredis hconn hslot hparse)⟩

/-- Every run of `update-gps-data` completes with exactly one reply, sent to the requester. -/
theorem updateGpsData_cases (E : Engine ν) (net : StoreReply) (socket : SocketId)
    (gpsData : JSValue ν) (st : Relay ν) :
    (updateGpsData E net socket gpsData st).result = .ok () ∧
    ∃ event payload, (event = "gps-update-success" ∨ event = "gps-error") ∧
      replies (updateGpsData E net socket gpsData st).trace = [(socket, event, payload)] := by
  obtain ⟨r, hr⟩ := invalidFormat_pure E gpsData st
  cases r with
  | error e =>
    rw [updateGpsData_throw E net socket gpsData e st hr]
    exact ⟨rfl, _, _, Or.inr rfl, rfl⟩
  | ok invalid =>
    cases invalid
    · cases hredis : st.redis
      · rw [updateGpsData_no_client E net socket gpsData st hr hredis]
        exact ⟨rfl, _, _, Or.inr rfl, rfl⟩
      · cases net with
        | fail msg =>
          rw [updateGpsData_store_failure E msg socket gpsData st hr hredis]
          exact ⟨rfl, _, _, Or.inr rfl, rfl⟩
        | ok =>
          rw [updateGpsData_accepted E socket gpsData st hr hredis]
          exact ⟨rfl, _, _, Or.inl rfl, rfl⟩
    · rw [updateGpsData_invalid E net socket gpsData st hr]
      exact ⟨rfl, _, _, Or.inr rfl, rfl⟩

/-- The handler `update-gps-data` never touches `lastGPSData`. -/
theorem updateGpsData_lastGPSData (E : Engine ν) (net : StoreReply) (socket : SocketId)
    (gpsData : JSValue ν) (st : Relay ν) :
    (updateGpsData E net socket gpsData st).state.lastGPSData = st.lastGPSData := by
  obtain ⟨r, hr⟩ := invalidFormat_pure E gpsData st
  cases r with
  | error e => rw [updateGpsData_throw E net socket gpsData e st hr]
  | ok invalid =>
    cases invalid
    · cases hredis : st.redis
      · rw [updateGpsData_no_client E net socket gpsData st hr hredis]
      · cases net with
        | fail msg => rw [updateGpsData_store_failure E msg socket gpsData st hr hredis]
        | ok => rw [updateGpsData_accepted E socket gpsData st hr hredis]
    · rw [updateGpsData_invalid E net socket gpsData st hr]

/-- The function `startRedisGPSMonitoring` does nothing when the store is unavailable. -/
theorem startRedisGPSMonitoring_unavailable (st : Relay ν)
    (h : st.redis = false ∨ st.isRedisConnected = false) :
    startRedisGPSMonitoring st = ⟨.ok (), st, []⟩ := by
  rcases h with h | h <;>
    simp [startRedisGPSMonitoring, Bind.bind, Pure.pure, Eff.andThen, Eff.getState, Eff.ret, h]

/-- The function `startRedisGPSMonitoring` schedules a fresh timer when the
store is available, whether or not a timer is already scheduled. -/
theorem startRedisGPSMonitoring_available (st : Relay ν)
    (hredis : st.redis = true) (hconn : st.isRedisConnected = true) :
    startRedisGPSMonitoring st =
      ⟨.ok (),
       { st with
          gpsMonitoringInterval := some st.nextTimer
          timers := st.timers ++ [st.nextTimer]
          nextTimer := st.nextTimer + 1 },
       [.setInterval st.nextTimer 2000]⟩ := by
  simp [startRedisGPSMonitoring, Bind.bind, Eff.andThen, Eff.getState, Eff.modifyState,
    setInterval, hredis, hconn]

/-- The function `stopRedisGPSMonitoring` does nothing when no handle is held. -/
theorem stopRedisGPSMonitoring_stopped (st : Relay ν) (h : st.gpsMonitoringInterval = none) :
    stopRedisGPSMonitoring st = ⟨.ok (), st, []⟩ := by
  simp [stopRedisGPSMonitoring, Bind.bind, Pure.pure, Eff.andThen, Eff.getState, Eff.ret, h]

/-- The function `stopRedisGPSMonitoring` clears the timer whose handle is held, and only that one. -/
theorem stopRedisGPSMonitoring_running (st : Relay ν) (handle : Nat)
    (h : st.gpsMonitoringInterval = some handle) :
    stopRedisGPSMonitoring st =
      ⟨.ok (),
       { st with
          gpsMonitoringInterval := none
          timers := st.timers.filter (fun t => t != handle) },
       [.clearInterval handle]⟩ := by
  simp [stopRedisGPSMonitoring, Bind.bind, Eff.andThen, Eff.getState, Eff.modifyState,
    clearInterval, h]

end Lemmas

/-! ## The claims -/

section Claims

variable {ν : Type}

/-- On a payload from which field `c` or field `p` reads as `undefined` (an
object without the field, a number, a string, an array), `update-gps-data` does nothing but send one `gps-error`
with error `Invalid GPS data format` to the caller: no store write, no
broadcast, and the module state, store slot and last-broadcast cache included,
is as before. -/
theorem updateGpsData_missing_field (E : Engine ν) (net : StoreReply) (socket : SocketId)
    (gpsData : JSValue ν) (st : Relay ν)
    (hmissing : getProp gpsData "c" = .ok .undefined ∨ getProp gpsData "p" = .ok .undefined) :
    (updateGpsData E net socket gpsData st).trace =
        [.socketEmit socket "gps-error" (gpsError "Invalid GPS data format" expectedFormat)] ∧
    storeWrites (updateGpsData E net socket gpsData st).trace = [] ∧
    (∀ event, broadcasts event (updateGpsData E net socket gpsData st).trace = []) ∧
    replies (updateGpsData E net socket gpsData st).trace =
        [(socket, "gps-error", gpsError "Invalid GPS data format" expectedFormat)] ∧
    (updateGpsData E net socket gpsData st).state = st := by
  have hinvalid : invalidFormat E gpsData st = ⟨.ok true, st, []⟩ := by
    rcases hmissing with hc | hp
    · exact invalidFormat_of_falsy E gpsData .undefined st hc (Or.inl rfl)
    · obtain ⟨c, hc⟩ := getProp_ok_of_ok "c" hp
      exact invalidFormat_of_falsy E gpsData c st hc (Or.inr ⟨.undefined, hp, rfl⟩)
  rw [updateGpsData_invalid E net socket gpsData st hinvalid]
  exact ⟨rfl, rfl, fun _ => rfl, rfl, rfl⟩

/-- C1 (the code departs from it): a payload that is `null`, or absent
(`undefined`), lacks field `c` as well, but on the running relay
`update-gps-data` answers it with `Failed to update GPS data` and the
`TypeError` text of the property read, not with `Invalid GPS data format`: the
read of line 233 throws and the catch of lines 253-258 replies. Nothing is
written or broadcast and the state is as before. -/
theorem update_null_payload_misreported :
    getProp (JSValue.null : JSValue Int) "c" = .error (typeErrorRead "null" "c") ∧
    updateGpsData refEngine .ok 1 .null liveRelay =
      ⟨.ok (), liveRelay,
        [.socketEmit 1 "gps-error"
          (gpsError "Failed to update GPS data"
            "Cannot read properties of null (reading 'c')")]⟩ ∧
    updateGpsData refEngine .ok 1 .undefined liveRelay =
      ⟨.ok (), liveRelay,
        [.socketEmit 1 "gps-error"
          (gpsError "Failed to update GPS data"
            "Cannot read properties of undefined (reading 'c')")]⟩ ∧
    getProp (gpsError "Failed to update GPS data"
        "Cannot read properties of null (reading 'c')" : JSValue Int) "error" =
      .ok (.str "Failed to update GPS data") ∧
    updateGpsData refEngine .ok 1 (.obj []) liveRelay =
      ⟨.ok (), liveRelay,
        [.socketEmit 1 "gps-error" (gpsError "Invalid GPS data format" expectedFormat)]⟩ :=
  ⟨rfl, rfl, rfl, rfl, rfl⟩

/-- C2 (the code departs from it): on the running relay with an empty cache,
`update-gps-data` accepts the sample record, writes it and broadcasts it, yet
`lastGPSData` is still `null` afterwards, and the next poll tick, the store
still holding that record, broadcasts it a second time. The same second
broadcast follows when the cache held a different record (`staleRelay`). -/
theorem update_leaves_cache_stale :
    (updateGpsData refEngine .ok 1 sampleRecord liveRelay).trace =
      [.redisSet "gps_data" (refEngine.jsonStringify sampleRecord),
       .ioEmit "gps-data-update" sampleRecord,
       .socketEmit 1 "gps-update-success" (updateSuccess sampleRecord)] ∧
    (updateGpsData refEngine .ok 1 sampleRecord liveRelay).state.lastGPSData = .null ∧
    (pollTick refEngine .ok (updateGpsData refEngine .ok 1 sampleRecord liveRelay).state).trace =
      [.redisGet "gps_data", .ioEmit "gps-data-update" sampleRecord] ∧
    staleRelay.lastGPSData = otherRecord ∧
    (pollTick refEngine .ok staleRelay).trace =
      [.redisGet "gps_data", .ioEmit "gps-data-update" sampleRecord] :=
  ⟨rfl, rfl, rfl, rfl, rfl⟩

/-- C3 as stated fails: with the store available and unchanged and the cache
empty at the start, three poll ticks over the stored value `oops` broadcast
nothing, and three poll ticks over the stored value `0` broadcast three times. -/
theorem poll_repeat_counterexample :
    broadcasts "gps-data-update"
        (pollTicks refEngine .ok 3 (directWrite "oops" liveRelay)).2.flatten = [] ∧
    broadcasts "gps-data-update"
        (pollTicks refEngine .ok 3 (directWrite "0" liveRelay)).2.flatten =
      [.num 0, .num 0, .num 0] :=
  ⟨rfl, rfl⟩

/-- C3, amended: when the stored value parses to a truthy value (any object or
array, so any GPS record), `n ≥ 1` poll ticks with the store available and
unchanged, starting from an empty cache, broadcast that value once, on the
first tick, and ticks `2..n` only read the store; and whenever the parsed value
serializes like a truthy cached value, a tick only reads the store and leaves
the state as it is. -/
theorem poll_ticks_single_broadcast (E : Engine ν) (st : Relay ν) (text : String)
    (record : JSValue ν) (n : Nat) (hn : 1 ≤ n)
    (hredis : st.redis = true) (hconn : st.isRedisConnected = true)
    (hslot : st.gps_data = some text) (hparse : E.jsonParse text = .ok record)
    (htruthy : toBoolean E record = true) (hcache : st.lastGPSData = .null) :
    (pollTicks E .ok n st).2 =
        [.redisGet "gps_data", .ioEmit "gps-data-update" record]
          :: List.replicate (n - 1) [.redisGet "gps_data"] ∧
    broadcasts "gps-data-update" (pollTicks E .ok n st).2.flatten = [record] ∧
    (pollTicks E .ok n st).1 = { st with lastGPSData := record } ∧
    (∀ (st2 : Relay ν) (text2 : String) (current : JSValue ν),
      st2.redis = true → st2.isRedisConnected = true → st2.gps_data = some text2 →
      E.jsonParse text2 = .ok current → toBoolean E st2.lastGPSData = true →
      E.jsonStringify current = E.jsonStringify st2.lastGPSData →
      pollTick E .ok st2 = ⟨.ok (), st2, [.redisGet "gps_data"]⟩) := by
  obtain ⟨k, rfl⟩ : ∃ k, n = k + 1 := ⟨n - 1, by omega⟩
  have hfirst := pollTick_broadcast E st text record hredis hconn hslot hparse
    (Or.inl (by rw [hcache]; rfl))
  have hrest := pollTicks_same E { st with lastGPSData := record } text record hredis hconn
    hslot hparse htruthy rfl k
  have hbroad : ∀ m : Nat, broadcasts "gps-data-update"
      (List.replicate m (Action.redisGet "gps_data" : Action ν)) = [] := by
    intro m
    induction m with
    | zero => rfl
    | succ j ih => simpa [List.replicate_succ, broadcasts] using ih
  refine ⟨?_, ?_, ?_, ?_⟩
  · simp [pollTicks, hfirst, hrest]
  · simp [pollTicks, hfirst, hrest, broadcasts, hbroad k]
  · simp [pollTicks, hfirst, hrest]
  · intro st2 text2 current h1 h2 h3 h4 h5 h6
    exact pollTick_same E st2 text2 current h1 h2 h3 h4 h5 h6

/-- C3 amended, at four ticks over the serialized sample record. -/
theorem poll_ticks_single_broadcast_witness :
    (1 ≤ 4 ∧ liveRelay.redis = true ∧ liveRelay.isRedisConnected = true ∧
      refEngine.jsonParse (refEngine.jsonStringify sampleRecord) = .ok sampleRecord ∧
      toBoolean refEngine sampleRecord = true ∧ liveRelay.lastGPSData = .null) ∧
    broadcasts "gps-data-update"
      (pollTicks refEngine .ok 4
        (directWrite (refEngine.jsonStringify sampleRecord) liveRelay)).2.flatten =
      [sampleRecord] :=
  ⟨⟨by decide, rfl, rfl, rfl, rfl, rfl⟩,
   (poll_ticks_single_broadcast refEngine
      (directWrite (refEngine.jsonStringify sampleRecord) liveRelay)
      (refEngine.jsonStringify sampleRecord) sampleRecord 4 (by decide) rfl rfl rfl rfl rfl
      rfl).2.1⟩

/-- C4 (the code departs from it): on the running relay a direct write of
`otherRecord` is relayed by a poll tick, then `update-gps-data` stores and
broadcasts `sampleRecord`; in the state reached `sampleRecord` is the record
last broadcast and the one in the store, while the cache still holds
`otherRecord`. A direct write of `otherRecord` is then missed: the next poll
tick only reads the store and broadcasts nothing. -/
theorem direct_write_missed_after_update :
    (pollTick refEngine .ok (directWrite (refEngine.jsonStringify otherRecord) liveRelay)).trace =
      [.redisGet "gps_data", .ioEmit "gps-data-update" otherRecord] ∧
    (updateGpsData refEngine .ok 1 sampleRecord
        ((directWrite (refEngine.jsonStringify otherRecord) liveRelay).after
          (pollTick refEngine .ok))).trace =
      [.redisSet "gps_data" (refEngine.jsonStringify sampleRecord),
       .ioEmit "gps-data-update" sampleRecord,
       .socketEmit 1 "gps-update-success" (updateSuccess sampleRecord)] ∧
    staleRelay.gps_data = some (refEngine.jsonStringify sampleRecord) ∧
    staleRelay.lastGPSData = otherRecord ∧
    refEngine.jsonStringify otherRecord ≠ refEngine.jsonStringify sampleRecord ∧
    pollTick refEngine .ok (directWrite (refEngine.jsonStringify otherRecord) staleRelay) =
      ⟨.ok (), directWrite (refEngine.jsonStringify otherRecord) staleRelay,
        [.redisGet "gps_data"]⟩ :=
  ⟨rfl, rfl, rfl, rfl, by decide, rfl⟩

/-- C5: when `redis` holds a client, the store accepts the write and fields `c`
and `p` of the payload are truthy, `update-gps-data` completes after exactly
three actions in this order: the write of the serialized payload to `gps_data`,
the broadcast of the payload, the `gps-update-success` reply to the caller whose
`data` is the payload. The slot then holds the serialized payload, every
registered connection receives exactly one `gps-data-update`, carrying the
payload, and the caller receives exactly one `gps-update-success` and no
`gps-error`. -/
theorem update_valid_fanout (E : Engine ν) (socket : SocketId) (gpsData c p : JSValue ν)
    (st : Relay ν) (hredis : st.redis = true)
    (hc : getProp gpsData "c" = .ok c) (hct : toBoolean E c = true)
    (hp : getProp gpsData "p" = .ok p) (hpt : toBoolean E p = true) :
    (updateGpsData E .ok socket gpsData st).result = .ok () ∧
    (updateGpsData E .ok socket gpsData st).state.gps_data = some (E.jsonStringify gpsData) ∧
    (updateGpsData E .ok socket gpsData st).trace =
      [.redisSet "gps_data" (E.jsonStringify gpsData),
       .ioEmit "gps-data-update" gpsData,
       .socketEmit socket "gps-update-success" (updateSuccess gpsData)] ∧
    (∀ conn ∈ st.clients,
      (inbox st.clients conn (updateGpsData E .ok socket gpsData st).trace).filter
        (fun m => m.1 == "gps-data-update") = [("gps-data-update", gpsData)]) ∧
    (inbox st.clients socket (updateGpsData E .ok socket gpsData st).trace).filter
        (fun m => m.1 == "gps-update-success") =
      [("gps-update-success", updateSuccess gpsData)] ∧
    (inbox st.clients socket (updateGpsData E .ok socket gpsData st).trace).filter
        (fun m => m.1 == "gps-error") = [] ∧
    getProp (updateSuccess gpsData) "data" = .ok gpsData := by
  rw [updateGpsData_accepted E socket gpsData st
    (invalidFormat_of_truthy E gpsData c p st hc hct hp hpt) hredis]
  refine ⟨rfl, rfl, rfl, ?_, ?_, ?_, rfl⟩
  · intro conn hconn
    by_cases hsock : socket = conn
    · simp [inbox, received, hconn, hsock, List.filter]
    · simp [inbox, received, hconn, hsock, List.filter]
  · by_cases hmem : socket ∈ st.clients
    · simp [inbox, received, hmem, List.filter]
    · simp [inbox, received, hmem, List.filter]
  · by_cases hmem : socket ∈ st.clients
    · simp [inbox, received, hmem, List.filter]
    · simp [inbox, received, hmem, List.filter]

/-- C5, at the sample record pushed by connection `1` of the running relay;
connection `2` receives the broadcast. -/
theorem update_valid_fanout_witness :
    (liveRelay.redis = true ∧
      getProp sampleRecord "c" = .ok (.obj [("lat", .num 1), ("lon", .num 2)]) ∧
      toBoolean refEngine (.obj [("lat", .num 1), ("lon", .num 2)]) = true ∧
      getProp sampleRecord "p" = .ok (.obj [("lat", .num 0), ("lon", .num 0)]) ∧
      toBoolean refEngine (.obj [("lat", .num 0), ("lon", .num 0)]) = true ∧
      2 ∈ liveRelay.clients) ∧
    (inbox liveRelay.clients 2 (updateGpsData refEngine .ok 1 sampleRecord liveRelay).trace).filter
        (fun m => m.1 == "gps-data-update") = [("gps-data-update", sampleRecord)] :=
  ⟨⟨rfl, rfl, rfl, rfl, rfl, by decide⟩,
   (update_valid_fanout refEngine 1 sampleRecord _ _ liveRelay rfl rfl rfl rfl rfl).2.2.2.1 2
     (by decide)⟩

/-- C6 (the code departs from it): on the relay whose connectivity flag is
false, `request-gps-data` replies `Redis not available` without a store
command, but `update-gps-data` with the sample record sends the write and, the
store accepting it, broadcasts and acknowledges, or, the store rejecting it,
replies `Failed to update GPS data`; with no client at all it replies
`Failed to update GPS data` carrying the `TypeError` of `redis.set`. -/
theorem update_ignores_availability :
    downRelay.redis = true ∧ downRelay.isRedisConnected = false ∧
    requestGpsData refEngine .ok 1 downRelay =
      ⟨.ok (), downRelay,
        [.socketEmit 1 "gps-error"
          (gpsError "Redis not available" "Redis connection is not established")]⟩ ∧
    (updateGpsData refEngine .ok 1 sampleRecord downRelay).trace =
      [.redisSet "gps_data" (refEngine.jsonStringify sampleRecord),
       .ioEmit "gps-data-update" sampleRecord,
       .socketEmit 1 "gps-update-success" (updateSuccess sampleRecord)] ∧
    (updateGpsData refEngine (.fail "Connection is closed.") 1 sampleRecord downRelay).trace =
      [.redisSet "gps_data" (refEngine.jsonStringify sampleRecord),
       .socketEmit 1 "gps-error"
         (gpsError "Failed to update GPS data" "Connection is closed.")] ∧
    (updateGpsData refEngine .ok 1 sampleRecord (boot false none)).trace =
      [.socketEmit 1 "gps-error"
        (gpsError "Failed to update GPS data"
          "Cannot read properties of undefined (reading 'set')")] :=
  ⟨rfl, rfl, rfl, rfl, rfl, rfl⟩

/-- C7: `request-gps-data` replies `Redis not available` without a store
command when `redis` is undefined or the connectivity flag is false; when the
store is available and the read returns, it replies `No GPS data found` if the
slot is absent and `gps-data` with the parsed record if the slot holds a text
that parses. In every run, whatever the store answers, the state (store slot
and cache included) is as before, nothing is broadcast, nothing is written, and
every reply goes to the requester. -/
theorem request_three_way (E : Engine ν) (net : StoreReply) (socket : SocketId) (st : Relay ν) :
    ((st.redis = false ∨ st.isRedisConnected = false) →
      requestGpsData E net socket st =
        ⟨.ok (), st,
          [.socketEmit socket "gps-error"
            (gpsError "Redis not available" "Redis connection is not established")]⟩) ∧
    (st.redis = true → st.isRedisConnected = true → st.gps_data = none →
      requestGpsData E .ok socket st =
        ⟨.ok (), st,
          [.redisGet "gps_data",
           .socketEmit socket "gps-error"
             (gpsError "No GPS data found" "gps_data key not found in Redis")]⟩) ∧
    (∀ (text : String) (record : JSValue ν),
      st.redis = true → st.isRedisConnected = true → st.gps_data = some text →
      E.jsonParse text = .ok record →
      requestGpsData E .ok socket st =
        ⟨.ok (), st, [.redisGet "gps_data", .socketEmit socket "gps-data" record]⟩) ∧
    (requestGpsData E net socket st).state = st ∧
    (∀ event, broadcasts event (requestGpsData E net socket st).trace = []) ∧
    storeWrites (requestGpsData E net socket st).trace = [] ∧
    (∀ r ∈ replies (requestGpsData E net socket st).trace, r.1 = socket) := by
  refine ⟨requestGpsData_unavailable E net socket st, ?_, ?_, ?_⟩
  · intro hredis hconn hslot
    exact requestGpsData_not_found E socket st hredis hconn (Or.inl hslot)
  · intro text record hredis hconn hslot hparse
    exact requestGpsData_found E socket st text record hredis hconn hslot hparse
  · obtain ⟨event, payload, _, h | h⟩ := requestGpsData_cases E net socket st <;>
      rw [h] <;> simp [broadcasts, storeWrites, replies]

/-- C7, at the three cases: the relay whose connection closed, the running
relay with an empty store, and the running relay whose store holds the
serialized sample record. -/
theorem request_three_way_witness :
    ((downRelay.redis = false ∨ downRelay.isRedisConnected = false) ∧
      replies (requestGpsData refEngine .ok 1 downRelay).trace =
        [(1, "gps-error",
          gpsError "Redis not available" "Redis connection is not established")]) ∧
    ((liveRelay.redis = true ∧ liveRelay.isRedisConnected = true ∧ liveRelay.gps_data = none) ∧
      replies (requestGpsData refEngine .ok 1 liveRelay).trace =
        [(1, "gps-error", gpsError "No GPS data found" "gps_data key not found in Redis")]) ∧
    (refEngine.jsonParse (refEngine.jsonStringify sampleRecord) = .ok sampleRecord ∧
      replies (requestGpsData refEngine .ok 1
          (directWrite (refEngine.jsonStringify sampleRecord) liveRelay)).trace =
        [(1, "gps-data", sampleRecord)]) :=
  ⟨⟨Or.inr rfl,
    congrArg (fun o => replies o.trace)
      ((request_three_way refEngine .ok 1 downRelay).1 (Or.inr rfl))⟩,
   ⟨⟨rfl, rfl, rfl⟩,
    congrArg (fun o => replies o.trace)
      ((request_three_way refEngine .ok 1 liveRelay).2.1 rfl rfl rfl)⟩,
   ⟨rfl,
    congrArg (fun o => replies o.trace)
      ((request_three_way refEngine .ok 1
          (directWrite (refEngine.jsonStringify sampleRecord) liveRelay)).2.2.1
        (refEngine.jsonStringify sampleRecord) sampleRecord rfl rfl rfl rfl)⟩⟩

/-- C8: for every engine, store answer, requester, payload and state, a run of
`request-gps-data` completes (no exception leaves the handler) with exactly
one reply, sent to the requester, named `gps-data` or `gps-error`, and a run
of `update-gps-data` completes with exactly one reply, sent to the requester,
named `gps-update-success` or `gps-error`. -/
theorem handlers_reply_exactly_once (E : Engine ν) (net : StoreReply) (socket : SocketId)
    (gpsData : JSValue ν) (st : Relay ν) :
    ((requestGpsData E net socket st).result = .ok () ∧
      ∃ event payload, (event = "gps-data" ∨ event = "gps-error") ∧
        replies (requestGpsData E net socket st).trace = [(socket, event, payload)]) ∧
    ((updateGpsData E net socket gpsData st).result = .ok () ∧
      ∃ event payload, (event = "gps-update-success" ∨ event = "gps-error") ∧
        replies (updateGpsData E net socket gpsData st).trace = [(socket, event, payload)]) := by
  refine ⟨?_, updateGpsData_cases E net socket gpsData st⟩
  obtain ⟨event, payload, hevent, h | h⟩ := requestGpsData_cases E net socket st <;>
    rw [h] <;> exact ⟨rfl, event, payload, hevent, rfl⟩

/-- C9 (the code departs from it): after the `ready` callback ran twice, two
poll timers are scheduled and the handle of the first is lost;
`stopRedisGPSMonitoring` clears the second only, so a poll timer is still
scheduled right after the stop, and a further stop does nothing. -/
theorem restart_leaks_timer :
    reconnectedRelay.timers = [0, 1] ∧
    reconnectedRelay.gpsMonitoringInterval = some 1 ∧
    (stopRedisGPSMonitoring reconnectedRelay).trace = [.clearInterval 1] ∧
    (reconnectedRelay.after stopRedisGPSMonitoring).timers = [0] ∧
    (reconnectedRelay.after stopRedisGPSMonitoring).gpsMonitoringInterval = none ∧
    ((reconnectedRelay.after stopRedisGPSMonitoring).after stopRedisGPSMonitoring).timers
      = [0] :=
  ⟨rfl, rfl, rfl, rfl, rfl, rfl⟩

/-- C10: a poll tick that finds the store unavailable, or the slot absent, or
the read rejected, or a stored text that does not parse, completes without an
error, broadcasts nothing, and leaves the whole state as it was: the cache,
the timer handle and the scheduled timers in particular. -/
theorem poll_tick_skip_frame (E : Engine ν) (net : StoreReply) (st : Relay ν)
    (hskip : (st.redis = false ∨ st.isRedisConnected = false) ∨
      (net = .ok ∧ st.gps_data = none) ∨
      (∃ msg, net = .fail msg) ∨
      (net = .ok ∧ ∃ text e, st.gps_data = some text ∧ E.jsonParse text = .error e)) :
    (pollTick E net st).result = .ok () ∧
    (∀ event, broadcasts event (pollTick E net st).trace = []) ∧
    replies (pollTick E net st).trace = [] ∧
    (pollTick E net st).state = st := by
  have key : pollTick E net st = ⟨.ok (), st, []⟩ ∨
      pollTick E net st = ⟨.ok (), st, [.redisGet "gps_data"]⟩ := by
    cases hredis : st.redis
    · exact Or.inl (pollTick_unavailable E net st (Or.inl hredis))
    cases hconn : st.isRedisConnected
    · exact Or.inl (pollTick_unavailable E net st (Or.inr hconn))
    rcases hskip with h | ⟨rfl, hslot⟩ | ⟨msg, rfl⟩ | ⟨rfl, text, e, hslot, hparse⟩
    · rcases h with h | h
      · rw [hredis] at h; cases h
      · rw [hconn] at h; cases h
    · exact Or.inr (pollTick_not_found E st hredis hconn (Or.inl hslot))
    · exact Or.inr (pollTick_read_failure E msg st hredis hconn)
    · exact Or.inr (pollTick_unparseable E st text e hredis hconn hslot hparse)
  rcases key with h | h <;> rw [h] <;> exact ⟨rfl, fun _ => rfl, rfl, rfl⟩

/-- C10, at the four kinds of skipped tick: connectivity flag false, empty
store, rejected read, stored text `oops`. -/
theorem poll_tick_skip_frame_witness :
    ((downRelay.redis = false ∨ downRelay.isRedisConnected = false) ∧
      (pollTick refEngine .ok downRelay).state = downRelay) ∧
    (liveRelay.gps_data = none ∧ (pollTick refEngine .ok liveRelay).state = liveRelay) ∧
    (pollTick refEngine (.fail "read ECONNRESET") liveRelay).state = liveRelay ∧
    ((∃ e, refEngine.jsonParse "oops" = .error e) ∧
      (pollTick refEngine .ok (directWrite "oops" liveRelay)).state =
        directWrite "oops" liveRelay) :=
  ⟨⟨Or.inr rfl,
    (poll_tick_skip_frame refEngine .ok downRelay (Or.inl (Or.inr rfl))).2.2.2⟩,
   ⟨rfl, (poll_tick_skip_frame refEngine .ok liveRelay (Or.inr (Or.inl ⟨rfl, rfl⟩))).2.2.2⟩,
   (poll_tick_skip_frame refEngine (.fail "read ECONNRESET") liveRelay
      (Or.inr (Or.inr (Or.inl ⟨_, rfl⟩)))).2.2.2,
   ⟨⟨_, rfl⟩,
    (poll_tick_skip_frame refEngine .ok (directWrite "oops" liveRelay)
      (Or.inr (Or.inr (Or.inr ⟨rfl, "oops", _, rfl, rfl⟩)))).2.2.2⟩⟩

end Claims

end AUJourney
